import Mathlib

/-
Verification of the flexpane dashboard's coordination core against its
natural-language specification.

The embedding below translates the Go sources into Lean:
  * `internal/models/pane.go`            — Todo, Event, Email, PaneData
  * `internal/providers/todo_file_provider.go` — TodoFileProvider
  * the TodoService variant (services package) with index validation
  * `internal/services/pane_registry.go` — PaneRegistry.GetEnabledPanes
  * `internal/panes/calendar_pane.go`, EmailPane — GetData degradation
  * `internal/providers/factory.go`      — ProviderFactory.CreateProvider
  * `internal/services/pane_factory.go`  — PaneFactory.CreatePane
  * `internal/handlers/handler.go`       — Handler.handleAddTodo

File I/O is modelled by threading the single backing file's parsed content
(`Option Json`) through the store's state; `encoding/json` marshalling and
unmarshalling are modelled at the level of the JSON value tree, restricted
to the shapes this program reads and writes.
-/

set_option autoImplicit false

namespace Flexpane

/-- A JSON value tree, the model of what `encoding/json` reads and writes.
Numbers are irrelevant to the todo file format and are carried as `Int`. -/
inductive Json where
  | null
  | bool (b : Bool)
  | num (n : Int)
  | str (s : String)
  | arr (elems : List Json)
  | obj (fields : List (String × Json))

/-- `models.Todo` from `internal/models/pane.go`:
`Done bool `json:"done"`; Message string `json:"message"``. -/
structure Todo where
  done : Bool
  message : String
deriving DecidableEq, Repr

/-- JSON encoding of one `models.Todo` as `json.Marshal` produces it:
an object with keys `done` and `message` (the struct tags). -/
def todoToJson (t : Todo) : Json :=
  .obj [("done", .bool t.done), ("message", .str t.message)]

/-- JSON encoding of the whole todo list, the value written by
`TodoFileProvider.save` (`json.MarshalIndent(p.todos, ...)`); indentation
does not affect the value tree. -/
def marshalTodos (ts : List Todo) : Json :=
  .arr (ts.map todoToJson)

/-- The name of a JSON value's kind as `encoding/json` prints it in
`UnmarshalTypeError` messages. -/
def Json.goKind : Json → String
  | .null => "null"
  | .bool _ => "bool"
  | .num _ => "number"
  | .str _ => "string"
  | .arr _ => "array"
  | .obj _ => "object"

/-- Decoding an object's fields into `models.Todo`, as `json.Unmarshal`
does: the struct field whose tag matches the key is populated, unknown keys
are ignored, and a type mismatch saves an `UnmarshalTypeError`, skips that
field, and continues with the remaining fields — Unmarshal's documented
skip-and-continue behavior — keeping only the first error. A `null` value
has no effect and produces no error. Returns the (possibly partially)
populated struct together with the first saved error, if any. (Go
additionally accepts a case-insensitive key match; the file format this
program itself writes always uses the exact lowercase tags `done` and
`message`, and only that format is in scope here.) -/
def decodeTodoFields : List (String × Json) → Todo → Todo × Option String
  | [], t => (t, none)
  | (k, v) :: rest, t =>
    if k = "done" then
      match v with
      | .bool b => decodeTodoFields rest { t with done := b }
      | .null => decodeTodoFields rest t
      | _ =>
        ((decodeTodoFields rest t).1,
          some ("json: cannot unmarshal " ++ v.goKind ++
            " into Go struct field Todo.done of type bool"))
    else if k = "message" then
      match v with
      | .str s => decodeTodoFields rest { t with message := s }
      | .null => decodeTodoFields rest t
      | _ =>
        ((decodeTodoFields rest t).1,
          some ("json: cannot unmarshal " ++ v.goKind ++
            " into Go struct field Todo.message of type string"))
    else
      decodeTodoFields rest t

/-- Decoding one array element into a `models.Todo` (zero value
`{false, ""}`): an object decodes field-wise, `null` has no effect, and any
other kind saves an error and leaves the element at its zero value. -/
def decodeTodo (j : Json) : Todo × Option String :=
  match j with
  | .obj fields => decodeTodoFields fields ⟨false, ""⟩
  | .null => (⟨false, ""⟩, none)
  | _ =>
    (⟨false, ""⟩,
      some ("json: cannot unmarshal " ++ j.goKind ++ " into Go value of type models.Todo"))

/-- Element-wise decoding of a JSON array into `[]models.Todo`: every
element is decoded (a failed element stays at its zero value and decoding
continues with the rest), and the first saved error, if any, is reported. -/
def decodeTodos : List Json → List Todo × Option String
  | [] => ([], none)
  | j :: rest =>
    let te := decodeTodo j
    let tse := decodeTodos rest
    (te.1 :: tse.1, match te.2 with | some e => some e | none => tse.2)

/-- `json.Unmarshal(data, &p.todos)`: an array replaces the slice with its
element-wise decoding (partially populated when elements fail), `null` sets
the slice to nil, and any other kind is an immediate error that leaves the
slice untouched. Returns the resulting slice value and the first error. -/
def unmarshalTodos (j : Json) (prior : List Todo) : List Todo × Option String :=
  match j with
  | .arr elems => decodeTodos elems
  | .null => ([], none)
  | _ =>
    (prior,
      some ("json: cannot unmarshal " ++ j.goKind ++ " into Go value of type []models.Todo"))

/-- State of a `TodoFileProvider` (equally a `TodoService`): the in-memory
slice plus the backing file's content. `none` models an absent file; `some j`
models a file whose text parses to the JSON value `j`. -/
structure TFPState where
  todos : List Todo
  file : Option Json

namespace TFPState

/-- `TodoFileProvider.save`: marshal the whole in-memory list and overwrite
the file. The write itself is modelled as succeeding (disk failures are
environmental); marshalling a `[]models.Todo` never fails. -/
def save (s : TFPState) : TFPState × Except String Unit :=
  ({ s with file := some (marshalTodos s.todos) }, .ok ())

/-- `TodoFileProvider.load`: if the file is absent, start empty and create it
by saving; otherwise unmarshal into the todos slice. The slice ends up as
whatever the unmarshal left there — untouched on a top-level type mismatch,
partially populated on element- or field-level mismatches — whether or not
an error is reported. -/
def load (s : TFPState) : TFPState × Except String Unit :=
  match s.file with
  | none => TFPState.save { s with todos := [] }
  | some j =>
    match unmarshalTodos j s.todos with
    | (ts, none) => ({ s with todos := ts }, .ok ())
    | (ts, some e) => ({ s with todos := ts }, .error e)

/-- `TodoFileProvider.GetTodos`: return the in-memory snapshot. -/
def getTodos (s : TFPState) : List Todo :=
  s.todos

/-- `TodoFileProvider.AddTodo`: append `{Done: false, Message: message}` and
save the whole list. -/
def addTodo (s : TFPState) (message : String) : TFPState × Except String Unit :=
  TFPState.save { s with todos := s.todos ++ [{ done := false, message := message }] }

/-- Flip `Done` at a (valid) position: `p.todos[index].Done = !p.todos[index].Done`. -/
def toggleAt : List Todo → Nat → List Todo
  | [], _ => []
  | t :: ts, 0 => { t with done := !t.done } :: ts
  | t :: ts, n + 1 => t :: toggleAt ts n

/-- `TodoFileProvider.ToggleTodo`: out-of-range index is a silent no-op
(`return nil // Invalid index, ignore`); otherwise flip and save. -/
def toggleTodo (s : TFPState) (index : Int) : TFPState × Except String Unit :=
  if index < 0 ∨ (s.todos.length : Int) ≤ index then
    (s, .ok ())
  else
    TFPState.save { s with todos := toggleAt s.todos index.toNat }

end TFPState

/-- `NewTodoFileProvider`: start with an empty slice, call `load`, and return
the provider. The source discards `load`'s return value, so construction
never reports an error. -/
def NewTodoFileProvider (file : Option Json) : TFPState :=
  (TFPState.load { todos := [], file := file }).1

/-- The `TodoService` variant with validation (services package): `AddTodo`
rejects an empty message before appending. -/
def TodoService.addTodo (s : TFPState) (message : String) : TFPState × Except String Unit :=
  if message = "" then
    (s, .error "todo message cannot be empty")
  else
    TFPState.addTodo s message

/-- The `TodoService` variant with validation: `ToggleTodo` reports an
invalid-index error instead of silently ignoring it. -/
def TodoService.toggleTodo (s : TFPState) (index : Int) : TFPState × Except String Unit :=
  if index < 0 ∨ (s.todos.length : Int) ≤ index then
    (s, .error ("invalid todo index: " ++ toString index ++
      " (valid range: 0-" ++ toString ((s.todos.length : Int) - 1) ++ ")"))
  else
    TFPState.save { s with todos := TFPState.toggleAt s.todos index.toNat }

/-- Running a sequence of `AddTodo` calls, one message after another. -/
def addAll (s : TFPState) (msgs : List String) : TFPState :=
  msgs.foldl (fun st m => (st.addTodo m).1) s

/-! ## Go map model

The registries and factories keep Go `map[string]V` values. They are modelled
as association lists: `lookupMap` is map indexing, `upsert` is map assignment
(overwrite an existing key, otherwise add the binding). -/

/-- Go map indexing `m[k]` with its `ok` flag as an `Option`. -/
def lookupMap {α : Type} : List (String × α) → String → Option α
  | [], _ => none
  | (k1, v) :: rest, k => if k1 = k then some v else lookupMap rest k

/-- Go map assignment `m[k] = v`: overwrite in place or add. -/
def upsert {α : Type} : List (String × α) → String → α → List (String × α)
  | [], k, v => [(k, v)]
  | (k1, v1) :: rest, k, v =>
    if k1 = k then (k, v) :: rest else (k1, v1) :: upsert rest k v

/-! ## Pane registry (`internal/services/pane_registry.go`) -/

/-- `models.PaneGridArea`: CSS grid placement strings. -/
structure PaneGridArea where
  row : String
  column : String
deriving DecidableEq, Repr

/-- `services.PaneLayoutConfig`. -/
structure PaneLayoutConfig where
  gridArea : PaneGridArea
deriving DecidableEq, Repr

/-- The `models.Pane` interface as seen by the registry at one request:
static identity plus the outcome of `GetData(ctx)` for this request.
`α` stands for Go's `interface{}` payload. -/
structure Pane (α : Type) where
  id : String
  title : String
  template : String
  getData : Except String α

/-- `models.PaneData`, the per-pane view-model record. `Data` is `interface{}`
in Go and can be `nil`, hence `Option α`. -/
structure PaneData (α : Type) where
  id : String
  title : String
  gridArea : PaneGridArea
  data : Option α
  template : String

/-- `services.PaneRegistry`: the pane map, the ordered enabled list, and the
layout map. -/
structure PaneRegistry (α : Type) where
  panes : List (String × Pane α)
  enabled : List String
  layout : List (String × PaneLayoutConfig)

/-- `NewPaneRegistry`. -/
def NewPaneRegistry (α : Type) : PaneRegistry α :=
  { panes := [], enabled := [], layout := [] }

/-- `PaneRegistry.RegisterPane`: `pr.panes[pane.ID()] = pane`. -/
def PaneRegistry.registerPane {α : Type} (pr : PaneRegistry α) (pane : Pane α) : PaneRegistry α :=
  { pr with panes := upsert pr.panes pane.id pane }

/-- `PaneRegistry.SetEnabledPanes`. -/
def PaneRegistry.setEnabledPanes {α : Type} (pr : PaneRegistry α) (paneIDs : List String) :
    PaneRegistry α :=
  { pr with enabled := paneIDs }

/-- `PaneRegistry.SetLayoutConfig`. -/
def PaneRegistry.setLayoutConfig {α : Type} (pr : PaneRegistry α)
    (layout : List (String × PaneLayoutConfig)) : PaneRegistry α :=
  { pr with layout := layout }

/-- `PaneRegistry.GetPane`. -/
def PaneRegistry.getPane {α : Type} (pr : PaneRegistry α) (paneID : String) : Option (Pane α) :=
  lookupMap pr.panes paneID

/-- `PaneRegistry.GetEnabledPanes`: walk the enabled IDs in order; skip an ID
with no registered pane; on a `GetData` error continue with `nil` data; a
missing layout entry is Go's zero value. Always returns `(paneData, nil)`. -/
def PaneRegistry.getEnabledPanes {α : Type} (pr : PaneRegistry α) :
    Except String (List (PaneData α)) :=
  .ok (pr.enabled.filterMap fun paneID =>
    match lookupMap pr.panes paneID with
    | none => none
    | some pane =>
      let data : Option α :=
        match pane.getData with
        | .ok d => some d
        | .error _ => none
      let layoutConfig := (lookupMap pr.layout paneID).getD ⟨⟨"", ""⟩⟩
      some { id := pane.id, title := pane.title, gridArea := layoutConfig.gridArea,
             data := data, template := pane.template })

/-! ## Data providers and the calendar/email panes -/

/-- `models.Event`; `time.Time` instants are carried as abstract `Int` values
(no claim touches their calendar meaning). -/
structure Event where
  id : String
  title : String
  startTime : Int
  endTime : Int
  location : String
deriving DecidableEq, Repr

/-- `models.Email`. -/
structure Email where
  id : String
  subject : String
  sender : String
  preview : String
  time : Int
  isRead : Bool
deriving DecidableEq, Repr

/-- The `providers.DataProvider` interface at one request: the outcomes of
its two fetch methods. -/
structure DataProvider where
  getCalendarEvents : Except String (List Event)
  getEmails : Except String (List Email)

/-- `models.CalendarPaneData` / the `{"Events", "Count"}` map built by
`CalendarPane.GetData`. -/
structure CalendarPaneData where
  events : List Event
  count : Nat
deriving DecidableEq, Repr

/-- `models.EmailPaneData` / the `{"Emails", "Count"}` map built by
`EmailPane.GetData`. -/
structure EmailPaneData where
  emails : List Email
  count : Nat
deriving DecidableEq, Repr

/-- `panes.CalendarPane` wraps a `DataProvider`. -/
structure CalendarPane where
  provider : DataProvider

/-- `CalendarPane.GetData`: on a provider error, return the empty payload
together with the error; otherwise the events and their count. The Go pair
`(interface{}, error)` becomes payload × optional error. -/
def CalendarPane.getData (cp : CalendarPane) : CalendarPaneData × Option String :=
  match cp.provider.getCalendarEvents with
  | .error err => ({ events := [], count := 0 }, some err)
  | .ok events => ({ events := events, count := events.length }, none)

/-- `panes.EmailPane` wraps a `DataProvider`. -/
structure EmailPane where
  provider : DataProvider

/-- `EmailPane.GetData`: same degradation shape as the calendar pane. -/
def EmailPane.getData (ep : EmailPane) : EmailPaneData × Option String :=
  match ep.provider.getEmails with
  | .error err => ({ emails := [], count := 0 }, some err)
  | .ok emails => ({ emails := emails, count := emails.length }, none)

/-! ## Provider factory (`internal/providers/factory.go`, table variant) -/

/-- The constructed provider instances the factory can return. A
`TodoFileProvider` inside a composite is identified by the backing file path
its constructor was given. -/
inductive Provider where
  | nullProvider
  | mockProvider
  | composite (calendarEmail : Provider) (todoFile : String)
deriving DecidableEq, Repr

/-- `providers.ProviderConfig`: `{type, args}`. The `args` values are only
ever read as strings (`args["todo_file"].(string)`). -/
structure ProviderConfig where
  type : String
  args : List (String × String)

/-- `providers.ProviderFactory`: the mutable constructor table. -/
structure ProviderFactory where
  constructors : List (String × (List (String × String) → Except String Provider))

/-- `ProviderFactory.RegisterProvider`: install/overwrite a constructor. -/
def ProviderFactory.registerProvider (pf : ProviderFactory) (providerType : String)
    (constructor : List (String × String) → Except String Provider) : ProviderFactory :=
  { pf with constructors := upsert pf.constructors providerType constructor }

/-- `createNullProvider`. -/
def createNullProvider (_ : List (String × String)) : Except String Provider :=
  .ok .nullProvider

/-- `createMockProvider`. -/
def createMockProvider (_ : List (String × String)) : Except String Provider :=
  .ok .mockProvider

/-- `createFileProvider`: composite of a `NullProvider` and a
`TodoFileProvider` on `args["todo_file"]`, defaulting to `data/todos.json`. -/
def createFileProvider (args : List (String × String)) : Except String Provider :=
  let todoFilename := (lookupMap args "todo_file").getD "data/todos.json"
  .ok (.composite .nullProvider todoFilename)

/-- `NewProviderFactory`: registers the production constructors
`file` and `null`. -/
def newProviderFactory : ProviderFactory :=
  let factory : ProviderFactory := { constructors := [] }
  let factory := factory.registerProvider "file" createFileProvider
  factory.registerProvider "null" createNullProvider

/-- `NewProviderFactoryWithMocks`: the production table plus `mock`. -/
def newProviderFactoryWithMocks : ProviderFactory :=
  newProviderFactory.registerProvider "mock" createMockProvider

/-- `ProviderFactory.CreateProvider`: look the type up; absent is the
reported error `unknown provider type: <type>`; otherwise run the
constructor on the args. -/
def ProviderFactory.createProvider (pf : ProviderFactory) (config : ProviderConfig) :
    Except String Provider :=
  match lookupMap pf.constructors config.type with
  | none => .error ("unknown provider type: " ++ config.type)
  | some constructor => constructor config.args

/-! ## Pane factory (`internal/services/pane_factory.go`) -/

/-- The constructed pane instances the pane factory can return. -/
inductive PaneInst where
  | calendarPane (provider : Provider)
  | emailPane (provider : Provider)
  | todoPane
deriving DecidableEq, Repr

/-- `services.PaneConfig` as consumed by `CreatePane` (`Enabled` and
`Layout` are not read there). -/
structure PaneConfig where
  type : String
  provider : String
  args : List (String × String)

/-- `services.PaneFactory`: two constructor tables and the data-provider
instance registry; the todo service is closed over by the `todos`
constructor and needs no field in this request-level model. -/
structure PaneFactory where
  dataProviderConstructors :
    List (String × (Provider → List (String × String) → PaneInst))
  serviceConstructors : List (String × (List (String × String) → PaneInst))
  dataProviderRegistry : List (String × Provider)

/-- `PaneFactory.RegisterDataProviderPaneType`. -/
def PaneFactory.registerDataProviderPaneType (pf : PaneFactory) (paneType : String)
    (constructor : Provider → List (String × String) → PaneInst) : PaneFactory :=
  { pf with dataProviderConstructors := upsert pf.dataProviderConstructors paneType constructor }

/-- `PaneFactory.RegisterServicePaneType`. -/
def PaneFactory.registerServicePaneType (pf : PaneFactory) (paneType : String)
    (constructor : List (String × String) → PaneInst) : PaneFactory :=
  { pf with serviceConstructors := upsert pf.serviceConstructors paneType constructor }

/-- `PaneFactory.RegisterDataProvider`. -/
def PaneFactory.registerDataProvider (pf : PaneFactory) (name : String)
    (provider : Provider) : PaneFactory :=
  { pf with dataProviderRegistry := upsert pf.dataProviderRegistry name provider }

/-- `createCalendarPane` / `createEmailPane` / `createTodoPane`. -/
def createCalendarPane (provider : Provider) (_ : List (String × String)) : PaneInst :=
  .calendarPane provider

def createEmailPane (provider : Provider) (_ : List (String × String)) : PaneInst :=
  .emailPane provider

def createTodoPane (_ : List (String × String)) : PaneInst :=
  .todoPane

/-- `NewPaneFactory`: registers `calendar`, `email` (data-provider panes)
and `todos` (service pane). -/
def newPaneFactory : PaneFactory :=
  let factory : PaneFactory :=
    { dataProviderConstructors := [], serviceConstructors := [], dataProviderRegistry := [] }
  let factory := factory.registerDataProviderPaneType "calendar" createCalendarPane
  let factory := factory.registerDataProviderPaneType "email" createEmailPane
  factory.registerServicePaneType "todos" createTodoPane

/-- `PaneFactory.CreatePane`: try the data-provider table (resolving the
named provider, or an arbitrary registry entry when unnamed — Go iterates the
map in unspecified order; the model takes the first entry), then the service
table, and otherwise report `unknown pane type: <type>`. -/
def PaneFactory.createPane (pf : PaneFactory) (config : PaneConfig) : Except String PaneInst :=
  match lookupMap pf.dataProviderConstructors config.type with
  | some constructor =>
    if config.provider ≠ "" then
      match lookupMap pf.dataProviderRegistry config.provider with
      | some provider => .ok (constructor provider config.args)
      | none => .error ("unknown data provider: " ++ config.provider)
    else
      match pf.dataProviderRegistry.head? with
      | some (_, provider) => .ok (constructor provider config.args)
      | none => .error "no data providers available"
  | none =>
    match lookupMap pf.serviceConstructors config.type with
    | some constructor => .ok (constructor config.args)
    | none => .error ("unknown pane type: " ++ config.type)

/-! ## The POST /api/todos handler (`internal/handlers/handler.go`) -/

/-- The request body of a POST to the todos endpoint, after
`json.NewDecoder(r.Body).Decode(&req)`: either the decode fails (malformed
JSON, or a body beyond the 1KB `MaxBytesReader` cap), or it yields the
`message` field (absent field decodes to `""`). -/
inductive ReqBody where
  | malformed
  | withMessage (message : String)

/-- `Handler.handleAddTodo`, run against the wired todos pane: 400 on a
decode failure, an empty message, or a message over 200 bytes (`len` in Go
counts bytes); otherwise append via the todo service and answer 201
(500 only if the persist fails). Returns the HTTP status and the resulting
store state. -/
def Handler.handleAddTodo (s : TFPState) (body : ReqBody) : Nat × TFPState :=
  match body with
  | .malformed => (400, s)
  | .withMessage message =>
    if message = "" then (400, s)
    else if 200 < message.utf8ByteSize then (400, s)
    else
      match TodoService.addTodo s message with
      | (s1, .ok _) => (201, s1)
      | (s1, .error _) => (500, s1)

/-! ## Helper lemmas -/

/-- Decoding the encoding of one todo recovers it without error. -/
theorem decodeTodo_todoToJson (t : Todo) : decodeTodo (todoToJson t) = (t, none) := rfl

/-- Element-wise decoding of the encoded list recovers it without error. -/
theorem decodeTodos_map_todoToJson (ts : List Todo) :
    decodeTodos (ts.map todoToJson) = (ts, none) := by
  induction ts with
  | nil => rfl
  | cons t ts ih =>
    simp only [List.map_cons, decodeTodos, decodeTodo_todoToJson, ih]

/-- Unmarshalling the marshalled todo list recovers it without error,
whatever the slice held before. -/
theorem unmarshalTodos_marshalTodos (ts prior : List Todo) :
    unmarshalTodos (marshalTodos ts) prior = (ts, none) := by
  simp only [marshalTodos, unmarshalTodos, decodeTodos_map_todoToJson]

/-- `AddTodo` appends one `{done := false}` item and reports success. -/
theorem addTodo_todos (s : TFPState) (m : String) :
    (s.addTodo m).1.todos = s.todos ++ [{ done := false, message := m }] ∧
    (s.addTodo m).2 = .ok () :=
  ⟨rfl, rfl⟩

/-- Running a batch of adds appends the corresponding items in order. -/
theorem addAll_todos (msgs : List String) (s : TFPState) :
    (addAll s msgs).todos = s.todos ++ msgs.map (fun m => { done := false, message := m }) := by
  induction msgs generalizing s with
  | nil => simp [addAll]
  | cons m ms ih =>
    simp only [addAll, List.foldl_cons, List.map_cons] at ih ⊢
    rw [ih, (addTodo_todos s m).1]
    simp

/-- Flipping an entry keeps the list's length. -/
theorem toggleAt_length (l : List Todo) (n : Nat) :
    (TFPState.toggleAt l n).length = l.length := by
  induction l generalizing n with
  | nil => rfl
  | cons t ts ih =>
    cases n with
    | zero => rfl
    | succ n => simp [TFPState.toggleAt, ih]

/-- Flipping the same entry twice restores the list. -/
theorem toggleAt_toggleAt (l : List Todo) (n : Nat) :
    TFPState.toggleAt (TFPState.toggleAt l n) n = l := by
  induction l generalizing n with
  | nil => rfl
  | cons t ts ih =>
    cases n with
    | zero => cases t; simp [TFPState.toggleAt]
    | succ n => simp [TFPState.toggleAt, ih]

/-- A successful map lookup returns a value stored under that key. -/
theorem lookupMap_mem {α : Type} (m : List (String × α)) (k : String) (v : α)
    (h : lookupMap m k = some v) : (k, v) ∈ m := by
  induction m with
  | nil => simp [lookupMap] at h
  | cons kv rest ih =>
    obtain ⟨k1, v1⟩ := kv
    by_cases hk : k1 = k
    · subst hk
      simp [lookupMap] at h
      simp [h]
    · simp [lookupMap, hk] at h
      exact List.mem_cons_of_mem _ (ih h)

/-! ## Claim theorems -/

/-- C1: starting from an empty todo store, a sequence of `AddTodo` calls with
messages `m1..mk` leaves `GetTodos` returning exactly
`[{done := false, m1}, ..., {done := false, mk}]` in order; each single
`AddTodo` appends one `{done := false}` item at the end of the existing list,
succeeds, and neither reorders, modifies, nor deletes existing items. -/
theorem addTodo_appends_never_reorders :
    (∀ (s : TFPState) (m : String),
      (s.addTodo m).1.todos = s.todos ++ [{ done := false, message := m }] ∧
      (s.addTodo m).2 = .ok ()) ∧
    ∀ (f : Option Json) (msgs : List String),
      (addAll { todos := [], file := f } msgs).getTodos =
        msgs.map (fun m => { done := false, message := m }) := by
  refine ⟨fun s m => addTodo_todos s m, fun f msgs => ?_⟩
  simp [TFPState.getTodos, addAll_todos]

/-- C2: after `save` succeeds on a store holding any list of todos,
reconstructing a fresh `TodoFileProvider` from the written file yields a
store whose `GetTodos` returns the same todos, same flags, same order. -/
theorem save_then_reload_roundtrip (ts : List Todo) (f : Option Json) :
    (TFPState.save { todos := ts, file := f }).2 = .ok () ∧
    NewTodoFileProvider (TFPState.save { todos := ts, file := f }).1.file =
      { todos := ts, file := some (marshalTodos ts) } ∧
    (NewTodoFileProvider (TFPState.save { todos := ts, file := f }).1.file).getTodos = ts := by
  refine ⟨rfl, ?_, ?_⟩ <;>
    simp [TFPState.save, NewTodoFileProvider, TFPState.load, unmarshalTodos_marshalTodos,
      TFPState.getTodos]

/-- C3: for a valid index, toggling twice (each persist succeeding) restores
the todo list exactly as it was before either call. -/
theorem toggleTodo_involutive (s : TFPState) (i : Int)
    (h0 : 0 ≤ i) (h1 : i < (s.todos.length : Int)) :
    ((s.toggleTodo i).1.toggleTodo i).1.todos = s.todos ∧
    (s.toggleTodo i).2 = .ok () ∧ ((s.toggleTodo i).1.toggleTodo i).2 = .ok () := by
  have hcond : ¬(i < 0 ∨ (s.todos.length : Int) ≤ i) := by omega
  have h₁ : s.toggleTodo i =
      (TFPState.save { s with todos := TFPState.toggleAt s.todos i.toNat }) := by
    simp only [TFPState.toggleTodo, if_neg hcond]
  have hlen : ((TFPState.toggleAt s.todos i.toNat).length : Int) = (s.todos.length : Int) := by
    rw [toggleAt_length]
  refine ⟨?_, ?_, ?_⟩
  · rw [h₁]
    simp only [TFPState.save, TFPState.toggleTodo, hlen, if_neg hcond, toggleAt_toggleAt]
  · rw [h₁]
    rfl
  · rw [h₁]
    simp only [TFPState.save, TFPState.toggleTodo, hlen, if_neg hcond]

/-- C3 witness: one-element store, index 0. -/
theorem toggleTodo_involutive_witness :
    ((TFPState.toggleTodo { todos := [{ done := false, message := "a" }], file := none }
        0).1.toggleTodo 0).1.todos = [{ done := false, message := "a" }] :=
  (toggleTodo_involutive { todos := [{ done := false, message := "a" }], file := none } 0
    (by decide) (by decide)).1

/-- C4: an out-of-range `ToggleTodo` leaves the whole store state — the
in-memory list and the backing file — untouched; the `TodoFileProvider`
variant returns silent success, the validating `TodoService` variant returns
the reported invalid-index error. Neither mutates any item. -/
theorem toggleTodo_out_of_range_frame (s : TFPState) (i : Int)
    (h : i < 0 ∨ (s.todos.length : Int) ≤ i) :
    s.toggleTodo i = (s, .ok ()) ∧
    TodoService.toggleTodo s i = (s, .error ("invalid todo index: " ++ toString i ++
      " (valid range: 0-" ++ toString ((s.todos.length : Int) - 1) ++ ")")) := by
  constructor <;> simp only [TFPState.toggleTodo, TodoService.toggleTodo, if_pos h]

/-- C4 witness: one-element store, index 5. -/
theorem toggleTodo_out_of_range_frame_witness :
    TFPState.toggleTodo { todos := [{ done := false, message := "a" }], file := none } 5 =
      ({ todos := [{ done := false, message := "a" }], file := none }, .ok ()) :=
  (toggleTodo_out_of_range_frame { todos := [{ done := false, message := "a" }], file := none } 5
    (Or.inr (by decide))).1

/-- C5 counterexample: files whose contents fail to deserialize (`load`
reports the unmarshal error on them) still yield a successfully constructed
provider — `NewTodoFileProvider` discards `load`'s return value, so
construction is never fatal. The file `"oops"` (top-level mismatch) gives a
store holding `[]`; the file `["x"]` (element-level mismatch) gives a store
holding the partially decoded `[{done := false, message := ""}]`. -/
theorem newTodoFileProvider_ignores_load_error :
    (TFPState.load { todos := [], file := some (Json.str "oops") }).2 =
      .error "json: cannot unmarshal string into Go value of type []models.Todo" ∧
    NewTodoFileProvider (some (Json.str "oops")) =
      { todos := [], file := some (Json.str "oops") } ∧
    (TFPState.load { todos := [], file := some (Json.arr [Json.str "x"]) }).2 =
      .error "json: cannot unmarshal string into Go value of type models.Todo" ∧
    NewTodoFileProvider (some (Json.arr [Json.str "x"])) =
      { todos := [{ done := false, message := "" }], file := some (Json.arr [Json.str "x"]) } :=
  ⟨rfl, rfl, rfl, rfl⟩

/-- C5 amended: construction from an existing file whose contents fail to
deserialize is NOT a fatal construction error — the constructor discards the
load failure and returns a successfully constructed store whose list is
whatever the failed unmarshal left in memory (empty after a top-level
mismatch, partially decoded after element- or field-level mismatches), with
the file left as it was. -/
theorem construction_swallows_deserialization_failure (j : Json) (ts : List Todo) (e : String)
    (h : unmarshalTodos j [] = (ts, some e)) :
    NewTodoFileProvider (some j) = { todos := ts, file := some j } ∧
    (TFPState.load { todos := [], file := some j }).2 = .error e := by
  constructor <;> simp [NewTodoFileProvider, TFPState.load, h]

/-- C5 amended witness: the concrete element-level mismatch `["x"]`. -/
theorem construction_swallows_deserialization_failure_witness :
    NewTodoFileProvider (some (Json.arr [Json.str "x"])) =
      { todos := [{ done := false, message := "" }], file := some (Json.arr [Json.str "x"]) } :=
  (construction_swallows_deserialization_failure (Json.arr [Json.str "x"])
    [{ done := false, message := "" }]
    "json: cannot unmarshal string into Go value of type models.Todo" rfl).1

/-- C6: `GetEnabledPanes` silently skips every enabled ID with no registered
pane, returning descriptors for exactly the registered enabled IDs in
enabled-list order; with only unregistered IDs enabled the result is empty —
and in every case it is a success, never an error. (The well-formedness
hypothesis records that every pane sits in the map under its own ID, which
`RegisterPane` guarantees.) -/
theorem getEnabledPanes_skips_unregistered {α : Type} (pr : PaneRegistry α)
    (hWF : ∀ kp ∈ pr.panes, (Prod.snd kp).id = kp.1) :
    ∃ l, pr.getEnabledPanes = .ok l ∧
      l.map PaneData.id = pr.enabled.filter (fun i => (lookupMap pr.panes i).isSome) ∧
      ((∀ i ∈ pr.enabled, lookupMap pr.panes i = none) → l = []) := by
  obtain ⟨panes, enabled, layout⟩ := pr
  refine ⟨_, rfl, ?_, ?_⟩
  · simp only [PaneRegistry.getEnabledPanes] at hWF ⊢
    induction enabled with
    | nil => rfl
    | cons i en ih =>
      rw [List.filterMap_cons, List.filter_cons]
      cases h : lookupMap panes i with
      | none => simpa [h] using ih
      | some p =>
        have hid : p.id = i := hWF (i, p) (lookupMap_mem panes i p h)
        simp only [h, Option.isSome_some, if_pos, List.map_cons, hid, ih]
  · intro hnone
    exact List.filterMap_eq_nil_iff.mpr (fun i hi => by simp [hnone i hi])

/-- A concrete pane for the C6 witness registry. -/
def ghostPane : Pane Nat :=
  { id := "todos", title := "Todos", template := "panes/todos.html", getData := .ok 0 }

/-- A registry holding one real pane but with only the unregistered ID
`ghost` enabled. -/
def ghostRegistry : PaneRegistry Nat :=
  ((NewPaneRegistry Nat).registerPane ghostPane).setEnabledPanes ["ghost"]

/-- C6 witness: resolving `ghostRegistry` succeeds with an empty result. -/
theorem getEnabledPanes_skips_unregistered_witness :
    ∃ l, ghostRegistry.getEnabledPanes = .ok l ∧
      l.map PaneData.id =
        ghostRegistry.enabled.filter (fun i => (lookupMap ghostRegistry.panes i).isSome) ∧
      ((∀ i ∈ ghostRegistry.enabled, lookupMap ghostRegistry.panes i = none) → l = []) :=
  getEnabledPanes_skips_unregistered ghostRegistry (by
    intro kp h
    rw [show ghostRegistry.panes = [("todos", ghostPane)] from rfl, List.mem_singleton] at h
    subst h
    rfl)

/-- C7: when the wrapped provider's fetch fails, `CalendarPane.GetData`
(resp. `EmailPane.GetData`) still returns a well-formed empty payload —
empty item list and count 0 — together with the propagated error. -/
theorem paneData_degrades_on_provider_error (p : DataProvider) (e : String) :
    (p.getCalendarEvents = .error e →
      CalendarPane.getData ⟨p⟩ = ({ events := [], count := 0 }, some e)) ∧
    (p.getEmails = .error e →
      EmailPane.getData ⟨p⟩ = ({ emails := [], count := 0 }, some e)) := by
  constructor <;> intro h <;> simp [CalendarPane.getData, EmailPane.getData, h]

/-- C7 witness: a provider failing both fetches. -/
theorem paneData_degrades_on_provider_error_witness :
    CalendarPane.getData ⟨⟨.error "boom", .error "boom"⟩⟩ =
      ({ events := [], count := 0 }, some "boom") ∧
    EmailPane.getData ⟨⟨.error "boom", .error "boom"⟩⟩ =
      ({ emails := [], count := 0 }, some "boom") :=
  ⟨(paneData_degrades_on_provider_error ⟨.error "boom", .error "boom"⟩ "boom").1 rfl,
   (paneData_degrades_on_provider_error ⟨.error "boom", .error "boom"⟩ "boom").2 rfl⟩

/-- C8: a type name with no registered constructor makes
`ProviderFactory.CreateProvider` return the reported error naming the type,
and likewise `PaneFactory.CreatePane` when the name is in neither of its two
tables; no constructed instance is returned. -/
theorem factories_error_on_unknown_type :
    (∀ (pf : ProviderFactory) (config : ProviderConfig),
      lookupMap pf.constructors config.type = none →
      pf.createProvider config = .error ("unknown provider type: " ++ config.type)) ∧
    ∀ (pf : PaneFactory) (config : PaneConfig),
      lookupMap pf.dataProviderConstructors config.type = none →
      lookupMap pf.serviceConstructors config.type = none →
      pf.createPane config = .error ("unknown pane type: " ++ config.type) := by
  constructor
  · intro pf config h
    simp [ProviderFactory.createProvider, h]
  · intro pf config h1 h2
    simp [PaneFactory.createPane, h1, h2]

/-- C8 witness: the built factories at the type name `nonexistent-xyz`. -/
theorem factories_error_on_unknown_type_witness :
    newProviderFactory.createProvider { type := "nonexistent-xyz", args := [] } =
      .error "unknown provider type: nonexistent-xyz" ∧
    newPaneFactory.createPane { type := "nonexistent-xyz", provider := "", args := [] } =
      .error "unknown pane type: nonexistent-xyz" :=
  ⟨factories_error_on_unknown_type.1 newProviderFactory
      { type := "nonexistent-xyz", args := [] } rfl,
   factories_error_on_unknown_type.2 newPaneFactory
      { type := "nonexistent-xyz", provider := "", args := [] } rfl rfl⟩

/-- C9: the POST handler answers 400 and leaves the store untouched on
malformed JSON, an empty message, or a message over the 200-byte cap; on a
valid non-empty message within the cap it appends the todo, persists, and
answers 201. -/
theorem handleAddTodo_status_spec (s : TFPState) (m : String) :
    Handler.handleAddTodo s .malformed = (400, s) ∧
    Handler.handleAddTodo s (.withMessage "") = (400, s) ∧
    (200 < m.utf8ByteSize → Handler.handleAddTodo s (.withMessage m) = (400, s)) ∧
    (m ≠ "" → m.utf8ByteSize ≤ 200 →
      Handler.handleAddTodo s (.withMessage m) =
        (201, { todos := s.todos ++ [{ done := false, message := m }],
                file := some (marshalTodos (s.todos ++ [{ done := false, message := m }])) })) := by
  refine ⟨rfl, rfl, ?_, ?_⟩
  · intro h
    have hm : ¬(m = "") := by
      intro he
      subst he
      exact absurd h (by decide)
    simp [Handler.handleAddTodo, hm, h]
  · intro hm hle
    simp [Handler.handleAddTodo, hm, Nat.not_lt.mpr hle, TodoService.addTodo,
      TFPState.addTodo, TFPState.save]

set_option maxRecDepth 8192 in
/-- C9 witness: a 201-byte message is rejected with 400; the message `hi`
is appended with 201. -/
theorem handleAddTodo_status_spec_witness :
    Handler.handleAddTodo { todos := [], file := none }
        (.withMessage (String.mk (List.replicate 201 'a'))) =
      (400, { todos := [], file := none }) ∧
    Handler.handleAddTodo { todos := [], file := none } (.withMessage "hi") =
      (201, { todos := [{ done := false, message := "hi" }],
              file := some (marshalTodos [{ done := false, message := "hi" }]) }) :=
  ⟨(handleAddTodo_status_spec { todos := [], file := none }
      (String.mk (List.replicate 201 'a'))).2.2.1 (by decide),
   (handleAddTodo_status_spec { todos := [], file := none } "hi").2.2.2
      (by decide) (by decide)⟩

/-- C10: `GetEnabledPanes` always returns a nil error, for every registry
state and every behavior of the registered panes' `GetData`. An enabled,
registered pane whose `GetData` errored still contributes a descriptor —
with its ID, title, template and configured layout populated and its data
field `nil` — and every descriptor returned comes from a registered enabled
pane, with data `nil` exactly when that pane's `GetData` errored (otherwise
the fetched payload). -/
theorem getEnabledPanes_never_errors {α : Type} (pr : PaneRegistry α) :
    ∃ l, pr.getEnabledPanes = .ok l ∧
      (∀ k p e, k ∈ pr.enabled → lookupMap pr.panes k = some p → p.getData = .error e →
        ({ id := p.id, title := p.title,
           gridArea := ((lookupMap pr.layout k).getD ⟨⟨"", ""⟩⟩).gridArea,
           data := none, template := p.template } : PaneData α) ∈ l) ∧
      ∀ d ∈ l, ∃ k p, k ∈ pr.enabled ∧ lookupMap pr.panes k = some p ∧
        d.id = p.id ∧ d.title = p.title ∧ d.template = p.template ∧
        d.gridArea = ((lookupMap pr.layout k).getD ⟨⟨"", ""⟩⟩).gridArea ∧
        d.data = (match p.getData with | .ok v => some v | .error _ => none) := by
  refine ⟨_, rfl, ?_, ?_⟩
  · intro k p e hk hp he
    refine List.mem_filterMap.mpr ⟨k, hk, ?_⟩
    simp [hp, he]
  · intro d hd
    rw [List.mem_filterMap] at hd
    obtain ⟨k, hk, hf⟩ := hd
    cases h : lookupMap pr.panes k with
    | none => simp [h] at hf
    | some p =>
      simp only [h] at hf
      rw [Option.some_inj] at hf
      subst hf
      exact ⟨k, p, hk, h, rfl, rfl, rfl, rfl, rfl⟩

end Flexpane
